import Mathlib

/-!
Shallow embedding of the kidbea_ml demand-forecasting core.

The Python sources embedded here are:
  * `forecasting/services/prediction_service.py` (forecast engine, derived
    inventory metrics, accuracy aggregation, result cache);
  * `forecasting/services/feature_engineering.py` (per-SKU feature assembly);
  * `forecasting/utils/data_loaders.py` (multiplier lookups over the loaded
    reference datasets);
  * `forecasting/tasks.py` (alert generation and accuracy calculation jobs).

Modelling conventions: Python floats are modelled as exact rationals (`ℚ`),
Python ints as `ℤ`/`ℕ`, Python dicts whose key sets matter as association
lists looked up by first match (all merged key sets in this code are
disjoint, so first-match lookup coincides with `dict.update` semantics).
Database and reference-data reads are modelled as explicit "world" inputs,
and a caught Python exception inside a sub-computation is modelled by a
boolean failure flag in the world selecting the handler's branch.
-/

namespace Forecasting

/-- Python `int()` applied to a float: truncation toward zero. -/
def pyTrunc (q : ℚ) : ℤ := if 0 ≤ q then ⌊q⌋ else ⌈q⌉

theorem pyTrunc_eq_floor {q : ℚ} (h : 0 ≤ q) : pyTrunc q = ⌊q⌋ := if_pos h

/-- A value stored in a Python feature dict: a number, a string, `None`,
or a boolean. -/
inductive FVal where
  | num (q : ℚ)
  | str (s : String)
  | nil
  | boolean (b : Bool)
deriving DecidableEq

/-- A Python dict used as a feature record: association list, first match
wins on lookup (key sets of the merged sub-dicts are disjoint). -/
abbrev FRecord := List (String × FVal)

/-- `dict.get(k)` returning `None` (here `none`) when the key is absent. -/
def FRecord.get : FRecord → String → Option FVal
  | [], _ => none
  | (k', v) :: rest, k => if k' = k then some v else FRecord.get rest k

/-- Python truthiness of a feature value (`None`, `0`, `""`, `False` are falsy). -/
def fvTruthy : FVal → Bool
  | .num q => q != 0
  | .str s => !s.isEmpty
  | .nil => false
  | .boolean b => b

/-- Python `str()` of a feature value. -/
def pyStr : FVal → String
  | .num q => toString q
  | .str s => s
  | .nil => "None"
  | .boolean b => if b then "True" else "False"

/-- Python `v == some_string` for a feature value. -/
def pyEqStr (v : FVal) (s : String) : Bool :=
  match v with
  | .str t => t == s
  | _ => false

/-- Python `v == 1.0` for a feature value (`True == 1.0` holds in Python). -/
def pyEqOne : FVal → Bool
  | .num q => q == 1
  | .boolean b => b
  | _ => false

/-- Python `float(v)`: numbers pass through, booleans coerce to 0/1,
`None` (and the non-numeric strings occurring here) raise, modelled as
`none`. -/
def fvAsNum : FVal → Option ℚ
  | .num q => some q
  | .boolean b => some (if b then 1 else 0)
  | _ => none

/-! ## `PredictionService._generate_single_forecast`
(`prediction_service.py` lines 159-229). The SKU argument is only used to
fetch the baseline (`_get_baseline_demand`), which is passed in here as
`baseline`; the forecast date only flows into the output's `date` field,
modelled as the day offset. -/

/-- One element of the `forecasts` list built by the prediction service. -/
structure DayForecast where
  date : ℕ
  predicted_quantity : ℤ
  confidence_lower : ℤ
  confidence_upper : ℤ
  model_type : String
  influencing_factors : List String
deriving DecidableEq

/-- The safe default single-day record returned by the handler of
`_generate_single_forecast` (lines 222-229). -/
def defaultDayForecast (dayOffset : ℕ) (modelType : String) : DayForecast :=
  { date := dayOffset, predicted_quantity := 10, confidence_lower := 5,
    confidence_upper := 15, model_type := modelType,
    influencing_factors := ["Default forecast due to error"] }

/-- The seven multiplier keys read at lines 173-181, in source order. -/
def multKeys : List String :=
  ["seasonal_multiplier", "festival_multiplier", "day_of_week_multiplier",
   "month_multiplier", "lifecycle_multiplier", "temperature_impact",
   "weather_impact"]

/-- `float(features.get(key, 1.0))`: a missing key defaults to `1.0`;
`none` models the `float()` call raising (caught by the enclosing handler). -/
def getMult (r : FRecord) (k : String) : Option ℚ :=
  match r.get k with
  | none => some 1
  | some v => fvAsNum v

/-- Collects a list of optional values, failing if any is `none` (the
first raising `float()` aborts the list construction). -/
def optList : List (Option ℚ) → Option (List ℚ)
  | [] => some []
  | none :: _ => none
  | some q :: rest =>
    match optList rest with
    | none => none
    | some qs => some (q :: qs)

/-- The seven `float(...)` conversions of lines 173-181; `none` if any of
them raises. -/
def getMults (r : FRecord) : Option (List ℚ) := optList (multKeys.map (getMult r))

/-- Lines 183-186: `combined_multiplier = 1.0`, then `combined *= mult`
for each `mult` with `mult and mult > 0` (a falsy, i.e. zero, multiplier or
a non-positive one is skipped). -/
def combineMultipliers (ms : List ℚ) : ℚ :=
  ms.foldl (fun acc m => if m ≠ 0 ∧ 0 < m then acc * m else acc) 1

/-- `_generate_single_forecast` (lines 159-229): predicted quantity,
confidence band and influencing factors for one day; any exception inside
the body yields `defaultDayForecast`. -/
def generateSingleForecast (baseline : ℚ) (features : FRecord)
    (modelType : String) (includeConfidence : Bool) (dayOffset : ℕ) :
    DayForecast :=
  match getMults features with
  | none => defaultDayForecast dayOffset modelType
  | some mults =>
    let predicted := max (pyTrunc (baseline * combineMultipliers mults)) 1
    let range := max (pyTrunc ((predicted : ℚ) * (2 / 10))) 5
    let lower := if includeConfidence then max (predicted - range) 0 else predicted
    let upper := if includeConfidence then predicted + range else predicted
    let factors :=
      (if fvTruthy ((features.get "is_festival_week").getD .nil) then
        ["Festival: " ++ pyStr ((features.get "festival_name").getD (.str "Unknown"))]
      else []) ++
      (if pyEqStr ((features.get "sales_trend_7d").getD .nil) "increasing" then
        ["Increasing trend"]
      else []) ++
      (if !pyEqOne ((features.get "temperature_impact").getD (.num 1)) then
        ["Weather impact"]
      else [])
    { date := dayOffset, predicted_quantity := predicted,
      confidence_lower := lower, confidence_upper := upper,
      model_type := modelType, influencing_factors := factors }

theorem gsf_none {baseline : ℚ} {r : FRecord} {mt : String} {ic : Bool} {d : ℕ}
    (hm : getMults r = none) :
    generateSingleForecast baseline r mt ic d = defaultDayForecast d mt := by
  unfold generateSingleForecast
  rw [hm]

theorem gsf_pq {baseline : ℚ} {r : FRecord} {mt : String} {ic : Bool} {d : ℕ}
    {ms : List ℚ} (hm : getMults r = some ms) :
    (generateSingleForecast baseline r mt ic d).predicted_quantity
      = max (pyTrunc (baseline * combineMultipliers ms)) 1 := by
  unfold generateSingleForecast
  rw [hm]

theorem gsf_lower {baseline : ℚ} {r : FRecord} {mt : String} {d : ℕ}
    {ms : List ℚ} (hm : getMults r = some ms) :
    (generateSingleForecast baseline r mt true d).confidence_lower
      = max (max (pyTrunc (baseline * combineMultipliers ms)) 1
          - max (pyTrunc (((max (pyTrunc (baseline * combineMultipliers ms)) 1 : ℤ) : ℚ) * (2 / 10))) 5) 0 := by
  unfold generateSingleForecast
  rw [hm]
  rfl

theorem gsf_upper {baseline : ℚ} {r : FRecord} {mt : String} {d : ℕ}
    {ms : List ℚ} (hm : getMults r = some ms) :
    (generateSingleForecast baseline r mt true d).confidence_upper
      = max (pyTrunc (baseline * combineMultipliers ms)) 1
        + max (pyTrunc (((max (pyTrunc (baseline * combineMultipliers ms)) 1 : ℤ) : ℚ) * (2 / 10))) 5 := by
  unfold generateSingleForecast
  rw [hm]
  rfl

/-- Spec-side combined multiplier: the product of the seven multipliers,
with any zero or negative multiplier replaced by `1.0` (a missing
multiplier already reaches this list as `1`). -/
def specCombinedMultiplier (ms : List ℚ) : ℚ :=
  (ms.map fun m => if 0 < m then m else 1).prod

theorem combine_aux (ms : List ℚ) : ∀ a : ℚ,
    ms.foldl (fun acc m => if m ≠ 0 ∧ 0 < m then acc * m else acc) a
      = a * (ms.map fun m => if 0 < m then m else 1).prod := by
  induction ms with
  | nil => intro a; simp
  | cons m rest ih =>
    intro a
    simp only [List.foldl_cons, List.map_cons, List.prod_cons]
    by_cases h : 0 < m
    · rw [if_pos ⟨h.ne', h⟩, if_pos h, ih]
      ring
    · rw [if_neg (by exact fun hc => h hc.2), if_neg h, ih]
      ring

theorem combineMultipliers_eq_spec (ms : List ℚ) :
    combineMultipliers ms = specCombinedMultiplier ms := by
  unfold combineMultipliers specCombinedMultiplier
  rw [combine_aux, one_mul]

theorem getMults_empty : getMults ([] : FRecord) = some [1, 1, 1, 1, 1, 1, 1] := rfl

/-- Claim C1, counterexample: with baseline `10.9` and all seven
multipliers missing (treated as `1.0`), the code computes
`max(int(10.9), 1) = 10`, whereas the claimed formula
`max(round(10.9), 1)` gives `11`. -/
theorem c1_counterexample :
    (generateSingleForecast (109 / 10) [] "moving_average" true 1).predicted_quantity
      ≠ max (round ((109 / 10 : ℚ) * specCombinedMultiplier [1, 1, 1, 1, 1, 1, 1])) 1 := by
  have hc : combineMultipliers [1, 1, 1, 1, 1, 1, 1] = 1 := by
    norm_num [combineMultipliers]
  have hs : specCombinedMultiplier [1, 1, 1, 1, 1, 1, 1] = 1 := by
    norm_num [specCombinedMultiplier]
  have h1 : (generateSingleForecast (109 / 10) [] "moving_average" true 1).predicted_quantity
      = 10 := by
    rw [gsf_pq getMults_empty, hc, mul_one]
    norm_num [pyTrunc, Rat.floor_def]
  have h2 : max (round ((109 / 10 : ℚ) * specCombinedMultiplier [1, 1, 1, 1, 1, 1, 1])) 1
      = 11 := by
    rw [hs, mul_one]
    norm_num [round_eq, Rat.floor_def]
  rw [h1, h2]
  decide

/-- Claim C1 (amended): whenever the seven multiplier fields of the feature
record are numeric or missing (so that no `float()` conversion raises), the
single-day predicted quantity equals
`max(trunc(baseline × combinedMultiplier), 1)` — truncation toward zero,
not rounding to nearest — where `combinedMultiplier` is the product of the
seven multipliers with any missing, zero, or negative one treated as `1.0`;
and the predicted quantity is always ≥ 1. -/
theorem c1_amended_thm (baseline : ℚ) (r : FRecord) (mt : String) (ic : Bool)
    (d : ℕ) (ms : List ℚ) (h : getMults r = some ms) :
    (generateSingleForecast baseline r mt ic d).predicted_quantity
        = max (pyTrunc (baseline * specCombinedMultiplier ms)) 1
      ∧ 1 ≤ (generateSingleForecast baseline r mt ic d).predicted_quantity := by
  rw [gsf_pq h, combineMultipliers_eq_spec]
  exact ⟨rfl, le_max_right _ _⟩

/-- Witness for `c1_amended_thm` at baseline 3 and the empty feature record. -/
theorem c1_amended_witness :
    (generateSingleForecast 3 [] "moving_average" true 1).predicted_quantity
        = max (pyTrunc (3 * specCombinedMultiplier [1, 1, 1, 1, 1, 1, 1])) 1
      ∧ 1 ≤ (generateSingleForecast 3 [] "moving_average" true 1).predicted_quantity :=
  c1_amended_thm 3 [] "moving_average" true 1 [1, 1, 1, 1, 1, 1, 1] rfl

/-- Claim C3, counterexample: with baseline 28 and no multipliers the
predicted quantity is 28; the code's band width is
`max(int(28 × 0.2), 5) = max(int(5.6), 5) = 5` (upper bound 33), whereas
the claimed `max(round(5.6), 5) = 6` would give upper bound 34. -/
theorem c3_counterexample :
    (generateSingleForecast 28 [] "moving_average" true 1).confidence_upper
      ≠ (generateSingleForecast 28 [] "moving_average" true 1).predicted_quantity
        + max (round (((generateSingleForecast 28 [] "moving_average" true 1).predicted_quantity : ℚ) * (2 / 10))) 5 := by
  have hc : combineMultipliers [1, 1, 1, 1, 1, 1, 1] = 1 := by
    norm_num [combineMultipliers]
  have h1 : (generateSingleForecast 28 [] "moving_average" true 1).predicted_quantity
      = 28 := by
    rw [gsf_pq getMults_empty, hc, mul_one]
    norm_num [pyTrunc, Rat.floor_def]
  have h2 : (generateSingleForecast 28 [] "moving_average" true 1).confidence_upper
      = 33 := by
    rw [gsf_upper getMults_empty, hc, mul_one]
    have ha : pyTrunc (28 : ℚ) = 28 := by norm_num [pyTrunc, Rat.floor_def]
    rw [ha]
    norm_num [pyTrunc, Rat.floor_def]
  rw [h1, h2]
  have h3 : round ((28 : ℚ) * (2 / 10)) = 6 := by
    norm_num [round_eq, Rat.floor_def]
  push_cast
  rw [h3]
  decide

/-- Claim C3 (amended): for every single-day forecast produced with
confidence enabled, the band satisfies
`width = max(trunc(0.2 × predicted), 5)` (truncation toward zero, not
rounding), `lower = max(predicted − width, 0)`,
`upper = predicted + width`; consequently the predicted quantity is ≥ 1 and
`lower ≤ predicted ≤ upper`. -/
theorem c3_amended_thm (baseline : ℚ) (r : FRecord) (mt : String) (d : ℕ) :
    (generateSingleForecast baseline r mt true d).confidence_lower
        = max ((generateSingleForecast baseline r mt true d).predicted_quantity
            - max (pyTrunc (((generateSingleForecast baseline r mt true d).predicted_quantity : ℚ) * (2 / 10))) 5) 0
      ∧ (generateSingleForecast baseline r mt true d).confidence_upper
        = (generateSingleForecast baseline r mt true d).predicted_quantity
            + max (pyTrunc (((generateSingleForecast baseline r mt true d).predicted_quantity : ℚ) * (2 / 10))) 5
      ∧ (generateSingleForecast baseline r mt true d).confidence_lower
          ≤ (generateSingleForecast baseline r mt true d).predicted_quantity
      ∧ (generateSingleForecast baseline r mt true d).predicted_quantity
          ≤ (generateSingleForecast baseline r mt true d).confidence_upper
      ∧ 1 ≤ (generateSingleForecast baseline r mt true d).predicted_quantity := by
  cases hm : getMults r with
  | none =>
    rw [gsf_none hm]
    have ha : pyTrunc ((10 : ℚ) * (2 / 10)) = 2 := by
      norm_num [pyTrunc, Rat.floor_def]
    unfold defaultDayForecast
    simp only
    rw [show ((10 : ℤ) : ℚ) = (10 : ℚ) by norm_num, ha]
    refine ⟨by decide, by decide, by decide, by decide, by decide⟩
  | some ms =>
    rw [gsf_pq hm, gsf_lower hm, gsf_upper hm]
    set p := max (pyTrunc (baseline * combineMultipliers ms)) 1 with hp
    set w := max (pyTrunc ((p : ℚ) * (2 / 10))) 5 with hw
    have hp1 : 1 ≤ p := le_max_right _ _
    have hw5 : (5 : ℤ) ≤ w := le_max_right _ _
    refine ⟨rfl, rfl, max_le (by linarith) (by linarith), by linarith, hp1⟩

/-! ## `tasks.generate_alerts` (`tasks.py` lines 340-417)
The pure alert decision of lines 373-385, as a function of the three
values read from the forecast dictionary: `current_stock`,
`days_until_stockout`, and `next_7d_demand` (the sum of the first 7
forecasts' predicted quantities). -/

/-- Lines 373-385 of `tasks.py`: the alert type and severity chosen for a
variant, `none` when no alert object is created. -/
def alertDecision (currentStock : ℤ) (daysUntilStockout : ℚ)
    (next7dDemand : ℤ) : Option (String × String) :=
  if daysUntilStockout < 3 then some ("stockout_warning", "critical")
  else if daysUntilStockout < 7 then some ("low_stock", "warning")
  else if (currentStock : ℚ) < (next7dDemand : ℚ) / 7 * (3 / 2) then
    some ("low_stock", "info")
  else none

/-- Spec-side alert decision: thresholds on days-until-stockout, then a
comparison of current stock against 1.5 × average daily demand, where
average daily demand is the 7-day forecast demand divided by 7. -/
def specAlertDecision (currentStock : ℤ) (daysUntilStockout : ℚ)
    (next7dDemand : ℤ) : Option (String × String) :=
  let avgDailyDemand : ℚ := (next7dDemand : ℚ) / 7
  if daysUntilStockout < 3 then some ("stockout_warning", "critical")
  else if daysUntilStockout < 7 then some ("low_stock", "warning")
  else if (currentStock : ℚ) < (3 / 2) * avgDailyDemand then
    some ("low_stock", "info")
  else none

/-- Claim C4: the alert decision agrees with the spec's case analysis, and
on the spec's concrete instances: days-until-stockout 2 gives
critical/stockout_warning, 5 gives warning/low_stock, stock 10 with 7-day
demand 70 (average daily demand 10) and no earlier threshold hit gives
info/low_stock, and stock 20 in the same situation gives no alert. -/
theorem c4_thm :
    (∀ (s : ℤ) (dd : ℚ) (n : ℤ), alertDecision s dd n = specAlertDecision s dd n)
    ∧ (∀ (s n : ℤ), alertDecision s 2 n = some ("stockout_warning", "critical"))
    ∧ (∀ (s n : ℤ), alertDecision s 5 n = some ("low_stock", "warning"))
    ∧ alertDecision 10 999 70 = some ("low_stock", "info")
    ∧ alertDecision 20 999 70 = none := by
  refine ⟨?_, ?_, ?_, ?_, ?_⟩
  · intro s dd n
    have h : ((n : ℚ) / 7 * (3 / 2)) = (3 / 2) * ((n : ℚ) / 7) := by ring
    simp only [alertDecision, specAlertDecision, h]
  · intro s n
    simp only [alertDecision]
    norm_num
  · intro s n
    simp only [alertDecision]
    norm_num
  · simp only [alertDecision]
    norm_num
  · simp only [alertDecision]
    norm_num

/-! ## `PredictionService._calculate_days_to_stockout`
(`prediction_service.py` lines 714-731). The current stock fetched by
`_get_current_stock` is passed in explicitly. -/

/-- The `for day_index, forecast in enumerate(forecasts, start=1)` loop of
lines 722-726, carrying the running cumulative demand. -/
def stockoutLoop (stock cum : ℤ) (idx : ℕ) : List DayForecast → ℚ
  | [] => 999
  | f :: rest =>
    if stock ≤ cum + f.predicted_quantity then (idx : ℚ)
    else stockoutLoop stock (cum + f.predicted_quantity) (idx + 1) rest

/-- `_calculate_days_to_stockout`: first 1-based day index at which the
cumulative predicted demand reaches the current stock, else `999.0`. -/
def calculateDaysToStockout (currentStock : ℤ) (forecasts : List DayForecast) : ℚ :=
  stockoutLoop currentStock 0 1 forecasts

/-- Spec-side days-until-stockout: the first day offset (1-based) at which
the cumulative predicted demand is ≥ current stock, and 999 when the
cumulative demand never reaches current stock within the horizon. -/
def specDaysToStockout (currentStock : ℤ) (qs : List ℤ) : ℚ :=
  match (List.range qs.length).find? (fun j => decide (currentStock ≤ ((qs.take (j + 1)).sum))) with
  | some j => ((j + 1 : ℕ) : ℚ)
  | none => 999

theorem findq_congr {α : Type} {p q : α → Bool} :
    ∀ l : List α, (∀ a ∈ l, p a = q a) → l.find? p = l.find? q := by
  intro l
  induction l with
  | nil => intro _; rfl
  | cons a t ih =>
    intro h
    have ha := h a (List.mem_cons_self a t)
    simp only [List.find?]
    rw [ha]
    cases hq : q a with
    | true => rfl
    | false => exact ih fun b hb => h b (List.mem_cons_of_mem _ hb)

theorem stockoutLoop_eq (fs : List DayForecast) : ∀ (stock cum : ℤ) (idx : ℕ),
    stockoutLoop stock cum idx fs =
      match (List.range fs.length).find?
          (fun j => decide (stock - cum ≤ (((fs.map (·.predicted_quantity)).take (j + 1)).sum))) with
      | some j => ((idx + j : ℕ) : ℚ)
      | none => 999 := by
  induction fs with
  | nil => intro stock cum idx; simp [stockoutLoop]
  | cons f rest ih =>
    intro stock cum idx
    rw [stockoutLoop]
    rw [List.length_cons, List.range_succ_eq_map, List.find?_cons]
    by_cases h : stock ≤ cum + f.predicted_quantity
    · have hd : decide (stock - cum ≤ (((f :: rest).map (·.predicted_quantity)).take (0 + 1)).sum) = true := by
        simp only [List.map_cons, List.take_succ_cons, List.take_zero, List.sum_cons,
          List.sum_nil, add_zero]
        rw [decide_eq_true_iff]
        omega
      rw [if_pos h, hd]
      simp
    · have hd : decide (stock - cum ≤ (((f :: rest).map (·.predicted_quantity)).take (0 + 1)).sum) = false := by
        simp only [List.map_cons, List.take_succ_cons, List.take_zero, List.sum_cons,
          List.sum_nil, add_zero]
        rw [decide_eq_false_iff_not]
        omega
      rw [if_neg h, hd, ih stock (cum + f.predicted_quantity) (idx + 1)]
      rw [List.find?_map]
      have hcong : ((List.range rest.length).find?
            ((fun j => decide (stock - cum ≤ (((f :: rest).map (·.predicted_quantity)).take (j + 1)).sum)) ∘ Nat.succ))
          = (List.range rest.length).find?
            (fun j => decide (stock - (cum + f.predicted_quantity) ≤ (((rest.map (·.predicted_quantity)).take (j + 1)).sum))) := by
        apply findq_congr
        intro j _
        simp only [Function.comp_apply, List.map_cons, Nat.succ_eq_add_one,
          List.take_succ_cons, List.sum_cons]
        by_cases hj : stock - (cum + f.predicted_quantity) ≤ ((rest.map (·.predicted_quantity)).take (j + 1)).sum
        · rw [decide_eq_true hj, decide_eq_true (by omega)]
        · rw [decide_eq_false hj, decide_eq_false (by omega)]
      rw [hcong]
      cases hfind : (List.range rest.length).find?
          (fun j => decide (stock - (cum + f.predicted_quantity) ≤ (((rest.map (·.predicted_quantity)).take (j + 1)).sum))) with
      | none => simp
      | some j =>
        simp only [Option.map_some]
        norm_num
        ring

/-- Claim C5: for every current stock value and every list of daily
forecasts, `_calculate_days_to_stockout` returns the first 1-based day
offset at which the cumulative predicted demand is ≥ current stock, and
999 when the cumulative demand never reaches current stock. -/
theorem c5_thm (currentStock : ℤ) (forecasts : List DayForecast) :
    calculateDaysToStockout currentStock forecasts
      = specDaysToStockout currentStock (forecasts.map (·.predicted_quantity)) := by
  unfold calculateDaysToStockout specDaysToStockout
  rw [stockoutLoop_eq]
  have hlen : (forecasts.map (·.predicted_quantity)).length = forecasts.length :=
    List.length_map _ _
  rw [hlen]
  have hcong : ((List.range forecasts.length).find?
        (fun j => decide (currentStock - 0 ≤ (((forecasts.map (·.predicted_quantity)).take (j + 1)).sum))))
      = (List.range forecasts.length).find?
        (fun j => decide (currentStock ≤ (((forecasts.map (·.predicted_quantity)).take (j + 1)).sum))) := by
    apply findq_congr
    intro j _
    rw [sub_zero]
  rw [hcong]
  cases hfind : (List.range forecasts.length).find?
      (fun j => decide (currentStock ≤ (((forecasts.map (·.predicted_quantity)).take (j + 1)).sum))) with
  | none => rfl
  | some j =>
    norm_num
    ring

/-! ## `tasks.calculate_accuracy` (`tasks.py` lines 268-337)
The error metrics computed at lines 293-302 for one forecast with a
realized actual quantity. -/

/-- Lines 293-302: `(percentage_error, absolute_error, squared_error)`. -/
def calculateAccuracyMetrics (predicted actual : ℤ) : ℚ × ℚ × ℚ :=
  let percentage_error : ℚ :=
    if predicted = 0 then 100
    else |(actual : ℚ) - (predicted : ℚ)| / (predicted : ℚ) * 100
  let absolute_error : ℚ := |(actual : ℚ) - (predicted : ℚ)|
  let squared_error : ℚ := ((actual : ℚ) - (predicted : ℚ)) ^ 2
  (percentage_error, absolute_error, squared_error)

/-- Spec-side percentage error: `|actual − predicted| / predicted × 100`,
special-cased to 100 when predicted = 0. -/
def specPercentageError (predicted actual : ℤ) : ℚ :=
  if predicted = 0 then 100
  else |(actual : ℚ) - (predicted : ℚ)| / (predicted : ℚ) * 100

/-- Spec-side absolute error. -/
def specAbsoluteError (predicted actual : ℤ) : ℚ := |(actual : ℚ) - (predicted : ℚ)|

/-- Spec-side squared error. -/
def specSquaredError (predicted actual : ℤ) : ℚ := ((actual : ℚ) - (predicted : ℚ)) ^ 2

/-- Claim C7: the accuracy job's stored error metrics follow the spec's
formulas for every (predicted, actual) pair, and in particular
predicted = 0, actual = 5 gives percentage error 100, while predicted = 10,
actual = 8 gives absolute error 2, squared error 4, percentage error 20. -/
theorem c7_thm :
    (∀ predicted actual : ℤ,
        calculateAccuracyMetrics predicted actual
          = (specPercentageError predicted actual,
             specAbsoluteError predicted actual,
             specSquaredError predicted actual))
    ∧ calculateAccuracyMetrics 0 5 = (100, 5, 25)
    ∧ calculateAccuracyMetrics 10 8 = (20, 2, 4) := by
  refine ⟨fun p a => rfl, ?_, ?_⟩
  · unfold calculateAccuracyMetrics
    norm_num
  · unfold calculateAccuracyMetrics
    norm_num

/-! ## `PredictionService._calculate_reorder_quantity`
(`prediction_service.py` lines 733-746). -/

/-- `_calculate_reorder_quantity`: the 30-day cumulative forecast plus
`int(total_30d * 0.3)` as safety stock. -/
def calculateReorderQuantity (forecasts : List DayForecast) : ℤ :=
  let total30 : ℤ := ((forecasts.take (min 30 forecasts.length)).map (·.predicted_quantity)).sum
  let safetyStock : ℤ := pyTrunc ((total30 : ℚ) * (3 / 10))
  total30 + safetyStock

/-- Five days of forecasts with predicted quantity 1 each. -/
def c8fs : List DayForecast :=
  [{ date := 1, predicted_quantity := 1, confidence_lower := 0, confidence_upper := 6,
     model_type := "moving_average", influencing_factors := [] },
   { date := 2, predicted_quantity := 1, confidence_lower := 0, confidence_upper := 6,
     model_type := "moving_average", influencing_factors := [] },
   { date := 3, predicted_quantity := 1, confidence_lower := 0, confidence_upper := 6,
     model_type := "moving_average", influencing_factors := [] },
   { date := 4, predicted_quantity := 1, confidence_lower := 0, confidence_upper := 6,
     model_type := "moving_average", influencing_factors := [] },
   { date := 5, predicted_quantity := 1, confidence_lower := 0, confidence_upper := 6,
     model_type := "moving_average", influencing_factors := [] }]

theorem c8fs_total :
    ((c8fs.take (min 30 c8fs.length)).map (·.predicted_quantity)).sum = 5 := by
  norm_num [c8fs]

/-- Claim C8, counterexample: with a 30-day cumulative forecast of 5 the
code returns `5 + int(5 × 0.3) = 5 + 1 = 6`, which differs from the claimed
`1.3 × 5 = 6.5`. -/
theorem c8_counterexample :
    ((calculateReorderQuantity c8fs : ℤ) : ℚ)
      ≠ (13 / 10) * ((((c8fs.take (min 30 c8fs.length)).map (·.predicted_quantity)).sum : ℤ) : ℚ) := by
  have hpt : pyTrunc ((5 : ℚ) * (3 / 10)) = 1 := by
    rw [show ((5 : ℚ) * (3 / 10)) = 3 / 2 by norm_num,
      pyTrunc_eq_floor (by norm_num)]
    norm_num [Rat.floor_def]
  have h1 : calculateReorderQuantity c8fs = 6 := by
    show ((c8fs.take (min 30 c8fs.length)).map (·.predicted_quantity)).sum
        + pyTrunc ((((c8fs.take (min 30 c8fs.length)).map (·.predicted_quantity)).sum : ℤ) * (3 / 10)) = 6
    rw [c8fs_total]
    rw [show (((5 : ℤ) : ℚ) * (3 / 10)) = (5 : ℚ) * (3 / 10) by norm_num, hpt]
    norm_num
  rw [h1, c8fs_total]
  norm_num

/-- Claim C8 (amended): for every list of daily forecasts whose 30-day
cumulative predicted demand S is nonnegative, the recommended reorder
quantity equals `⌊1.3 × S⌋ = S + ⌊0.3 × S⌋` — the 30% safety margin is
truncated to an integer before being added, so the result is the floor of
1.3 × S rather than exactly 1.3 × S. -/
theorem c8_amended_thm (forecasts : List DayForecast)
    (h : 0 ≤ ((forecasts.take (min 30 forecasts.length)).map (·.predicted_quantity)).sum) :
    calculateReorderQuantity forecasts
      = ⌊(13 / 10 : ℚ) * ((((forecasts.take (min 30 forecasts.length)).map (·.predicted_quantity)).sum : ℤ) : ℚ)⌋ := by
  have key : ∀ S : ℤ, 0 ≤ S → S + pyTrunc ((S : ℚ) * (3 / 10)) = ⌊(13 / 10 : ℚ) * (S : ℚ)⌋ := by
    intro S hSnn
    have hq : (0 : ℚ) ≤ (S : ℚ) * (3 / 10) := by
      have : (0 : ℚ) ≤ (S : ℚ) := by exact_mod_cast hSnn
      positivity
    rw [pyTrunc_eq_floor hq,
      show (13 / 10 : ℚ) * (S : ℚ) = ((S : ℤ) : ℚ) + (S : ℚ) * (3 / 10) by ring,
      Int.floor_int_add]
  exact key _ h

/-- Witness for `c8_amended_thm` on `c8fs` (S = 5, reorder = 6 = ⌊6.5⌋). -/
theorem c8_amended_witness :
    0 ≤ ((c8fs.take (min 30 c8fs.length)).map (·.predicted_quantity)).sum
    ∧ calculateReorderQuantity c8fs
      = ⌊(13 / 10 : ℚ) * ((((c8fs.take (min 30 c8fs.length)).map (·.predicted_quantity)).sum : ℤ) : ℚ)⌋ :=
  ⟨by rw [c8fs_total]; norm_num, c8_amended_thm c8fs (by rw [c8fs_total]; norm_num)⟩

/-! ## `PredictionService.get_forecast_accuracy_metrics`
(`prediction_service.py` lines 583-668). The selected `ForecastAccuracy`
rows are passed in as a list; the per-model grouping iterates them in
order (dict insertion order = first-appearance order of each model type).
The code reports `math.sqrt` of the radicands modelled here; since `sqrt`
of a rational is irrational, the embedding carries the radicand and the
theorems apply `Real.sqrt` to it. -/

/-- One selected `ForecastAccuracy` row, with its stored error fields. -/
structure AccuracyRecord where
  predicted_quantity : ℤ
  actual_quantity : ℤ
  absolute_error : ℚ
  percentage_error : ℚ
  squared_error : ℚ
  model_type : String
deriving DecidableEq

/-- Line 599-603: `Avg('percentage_error')`, with `stats['mape'] or 0`
(`None` on an empty queryset, and a zero average, both give 0). -/
def overallMape (rs : List AccuracyRecord) : ℚ :=
  if rs.isEmpty then 0 else (rs.map (·.percentage_error)).sum / rs.length

/-- Line 602: `Avg('absolute_error')` with `or 0`. -/
def overallMae (rs : List AccuracyRecord) : ℚ :=
  if rs.isEmpty then 0 else (rs.map (·.absolute_error)).sum / rs.length

/-- Lines 599-606: the code aggregates `rmse=Sum('squared_error')` and then
reports `math.sqrt(stats['rmse'])` — the square root of the SUM of the
stored squared errors (0 when the sum is falsy, which agrees with
`sqrt 0 = 0`). This is the radicand. -/
def overallRmseRadicand (rs : List AccuracyRecord) : ℚ :=
  (rs.map (·.squared_error)).sum

/-- Model types in first-appearance order (the key order of the `by_model`
dict built at lines 609-618). -/
def modelTypes (rs : List AccuracyRecord) : List String :=
  (rs.map (·.model_type)).dedup

/-- The `by_model[model_type]` bucket: records with the given model type,
in selection order. -/
def modelGroup (rs : List AccuracyRecord) (m : String) : List AccuracyRecord :=
  rs.filter (fun v => decide (v.model_type = m))

/-- Line 623: per-model MAPE = mean of the stored percentage errors. -/
def modelMape (vs : List AccuracyRecord) : ℚ :=
  (vs.map (·.percentage_error)).sum / vs.length

/-- Line 626: the per-model "rmse" is `sqrt` of the mean of the SQUARED
PERCENTAGE errors (`v['error']**2` where `error` is the percentage error),
not of the stored squared errors. This is the radicand. -/
def modelRmseRadicand (vs : List AccuracyRecord) : ℚ :=
  (vs.map (fun v => v.percentage_error ^ 2)).sum / vs.length

/-- Lines 620-633: the per-model stats entry `(mape, rmse-radicand)`; the
`values` list of a key present in `by_model` is never empty, but the code's
defensive `else` branch is kept. -/
def modelEntry (rs : List AccuracyRecord) (m : String) : ℚ × ℚ :=
  let vs := modelGroup rs m
  if vs.isEmpty then (0, 0) else (modelMape vs, modelRmseRadicand vs)

/-- Lines 620-650: `model_stats`, with the lines 644-650 fallback to a
single `default` entry with zero metrics when no model groups exist. -/
def modelStats (rs : List AccuracyRecord) : List (String × ℚ × ℚ) :=
  let base := (modelTypes rs).map (fun m => (m, modelEntry rs m))
  if base.isEmpty then [("default", (0, 0))] else base

/-- Two accuracy records (same model type) with stored squared errors
1 and 9. -/
def c6recs : List AccuracyRecord :=
  [{ predicted_quantity := 3, actual_quantity := 2, absolute_error := 1,
     percentage_error := 100 / 3, squared_error := 1, model_type := "moving_average" },
   { predicted_quantity := 5, actual_quantity := 2, absolute_error := 3,
     percentage_error := 60, squared_error := 9, model_type := "moving_average" }]

/-- Claim C6, counterexample: on two records with squared errors 1 and 9
the code reports `sqrt(1 + 9) = sqrt 10` as the overall RMSE, while the
square root of the mean of the stored squared errors is `sqrt 5`. -/
theorem c6_counterexample :
    Real.sqrt ((overallRmseRadicand c6recs : ℚ) : ℝ)
      ≠ Real.sqrt (((((c6recs.map (·.squared_error)).sum / c6recs.length : ℚ)) : ℝ)) := by
  have h1 : overallRmseRadicand c6recs = 10 := by
    norm_num [overallRmseRadicand, c6recs]
  have h2 : ((c6recs.map (·.squared_error)).sum / c6recs.length : ℚ) = 5 := by
    norm_num [c6recs]
  rw [h1, h2]
  intro h
  have h10 : ((10 : ℚ) : ℝ) = (10 : ℝ) := by norm_num
  have h5 : ((5 : ℚ) : ℝ) = (5 : ℝ) := by norm_num
  rw [h10, h5] at h
  have := (Real.sqrt_inj (by norm_num) (by norm_num)).mp h
  norm_num at this

theorem find?_map_key {β : Type} (l : List String) (g : String → β) (m : String)
    (hm : m ∈ l) :
    ((l.map fun x => (x, g x)).find? (fun p => decide (p.1 = m))) = some (m, g m) := by
  induction l with
  | nil => cases hm
  | cons a t ih =>
    by_cases h : a = m
    · subst h
      simp [List.find?]
    · have hmt : m ∈ t := by
        cases hm with
        | head => exact absurd rfl h
        | tail _ hmem => exact hmem
      simp only [List.map_cons, List.find?]
      rw [decide_eq_false (by simpa using h)]
      exact ih hmt

theorem modelGroup_ne_nil {rs : List AccuracyRecord} {m : String}
    (hm : m ∈ modelTypes rs) : (modelGroup rs m).isEmpty = false := by
  unfold modelTypes at hm
  rw [List.mem_dedup] at hm
  obtain ⟨r, hr, hrm⟩ := List.mem_map.mp hm
  have : r ∈ modelGroup rs m :=
    List.mem_filter.mpr ⟨hr, by rw [decide_eq_true_iff]; exact hrm⟩
  cases hg : modelGroup rs m with
  | nil => rw [hg] at this; cases this
  | cons x xs => rfl

/-- Claim C6 (amended): the overall "RMSE" is the square root of the SUM of
the stored squared errors (not of their mean); the per-model grouping
reports only a MAPE (mean of the stored percentage errors) and an "RMSE"
whose radicand is the mean of the SQUARED PERCENTAGE errors (no per-model
MAE and no use of the stored squared errors); and when no records exist,
`by_model_type` holds the single placeholder group `default` with zero
metrics. -/
theorem c6_amended_thm (rs : List AccuracyRecord) (m : String)
    (hm : m ∈ modelTypes rs) :
    Real.sqrt ((overallRmseRadicand rs : ℚ) : ℝ)
        = Real.sqrt ((((rs.map (·.squared_error)).sum : ℚ) : ℝ))
      ∧ (modelStats rs).find? (fun p => decide (p.1 = m))
        = some (m, modelMape (modelGroup rs m), modelRmseRadicand (modelGroup rs m))
      ∧ modelStats [] = [("default", (0, 0))] := by
  refine ⟨rfl, ?_, rfl⟩
  have hbase : ((modelTypes rs).map (fun x => (x, modelEntry rs x))).isEmpty = false := by
    cases ht : modelTypes rs with
    | nil => rw [ht] at hm; cases hm
    | cons x xs => rfl
  unfold modelStats
  rw [if_neg (by simp [hbase])]
  rw [find?_map_key _ _ _ hm]
  unfold modelEntry
  rw [if_neg (by simp [modelGroup_ne_nil hm])]

/-- One accuracy record for the witness world. -/
def c6wrecs : List AccuracyRecord :=
  [{ predicted_quantity := 10, actual_quantity := 8, absolute_error := 2,
     percentage_error := 20, squared_error := 4, model_type := "ensemble" }]

/-- Witness for `c6_amended_thm` on a one-record list with model type
`ensemble`. -/
theorem c6_amended_witness :
    Real.sqrt ((overallRmseRadicand c6wrecs : ℚ) : ℝ)
        = Real.sqrt ((((c6wrecs.map (·.squared_error)).sum : ℚ) : ℝ))
      ∧ (modelStats c6wrecs).find? (fun p => decide (p.1 = "ensemble"))
        = some ("ensemble", modelMape (modelGroup c6wrecs "ensemble"),
            modelRmseRadicand (modelGroup c6wrecs "ensemble"))
      ∧ modelStats [] = [("default", (0, 0))] :=
  c6_amended_thm c6wrecs "ensemble" (by simp [modelTypes, c6wrecs])

/-! ## `data_loaders.py`: multiplier lookups
The JSON reference datasets (`seasonal_patterns.json`, the festival
calendar) are modelled in already-parsed form as explicit inputs; the
load/cache/file-fallback plumbing of `load_seasonal_patterns` and
`load_festival_calendar` is outside the claims and is not modelled. -/

/-- The parsed seasonal-patterns dataset: seasons with their months and
category multipliers, day-of-week patterns, month patterns, weather and
temperature impacts, and lifecycle phases `(name, start, end, multiplier)`
(the multiplier is optional, `demand_multiplier` defaulting to 1.0). -/
structure SeasonalPatterns where
  seasons : List (String × List ℕ × List (String × ℚ))
  dayOfWeekPatterns : List (String × ℚ)
  monthPatterns : List (String × ℚ)
  weatherImpact : List (String × ℚ)
  tempImpact : List (String × ℚ)
  lifecyclePhases : List (String × ℤ × ℤ × Option ℚ)

/-- `dict.get(k, d)` over a parsed JSON object with rational values. -/
def lookupQ (l : List (String × ℚ)) (k : String) (d : ℚ) : ℚ :=
  match l.find? (fun p => decide (p.1 = k)) with
  | some p => p.2
  | none => d

/-- The `days` list of `get_day_of_week_multiplier`. -/
def dayNames : List String :=
  ["monday", "tuesday", "wednesday", "thursday", "friday", "saturday", "sunday"]

/-- `get_day_of_week_multiplier` (`data_loaders.py` lines 272-290): out of
range gives 1.0, else the day pattern with default 1.0. -/
def getDayOfWeekMultiplier (sp : SeasonalPatterns) (weekday : ℕ) : ℚ :=
  if 6 < weekday then 1
  else lookupQ sp.dayOfWeekPatterns (dayNames.getD weekday "") 1

/-- `get_month_multiplier` (lines 293-309): out of range gives 1.0, else
the month pattern keyed by `str(month)` with default 1.0. -/
def getMonthMultiplier (sp : SeasonalPatterns) (month : ℕ) : ℚ :=
  if month < 1 ∨ 12 < month then 1
  else lookupQ sp.monthPatterns (toString month) 1

/-- `get_seasonal_multiplier` (lines 216-243): find the first season whose
month list contains the month, then that season's category multiplier with
default 1.0; 1.0 if no season matches. -/
def getSeasonalMultiplier (sp : SeasonalPatterns) (category : String) (month : ℕ) : ℚ :=
  match sp.seasons.find? (fun s => s.2.1.contains month) with
  | none => 1
  | some s => lookupQ s.2.2 category 1

/-- `get_temperature_impact` (lines 335-363): fixed 5 °C buckets keyed by
name, each with default 1.0. -/
def getTemperatureImpact (sp : SeasonalPatterns) (t : ℚ) : ℚ :=
  if t < 10 then lookupQ sp.tempImpact "below_10" 1
  else if t < 15 then lookupQ sp.tempImpact "10_to_15" 1
  else if t < 20 then lookupQ sp.tempImpact "15_to_20" 1
  else if t < 25 then lookupQ sp.tempImpact "20_to_25" 1
  else if t < 30 then lookupQ sp.tempImpact "25_to_30" 1
  else if t < 35 then lookupQ sp.tempImpact "30_to_35" 1
  else if t < 40 then lookupQ sp.tempImpact "35_to_40" 1
  else lookupQ sp.tempImpact "above_40" 1

/-- Leading-segment test on character lists. -/
def lStarts : List Char → List Char → Bool
  | _, [] => true
  | [], _ :: _ => false
  | a :: as, b :: bs => a = b && lStarts as bs

/-- Substring occurrence test on character lists (Python `pat in hay`). -/
def lHasSub (pat : List Char) : List Char → Bool
  | [] => pat.isEmpty
  | c :: rest => lStarts (c :: rest) pat || lHasSub pat rest

/-- Python `pat in hay` on strings. -/
def strHasSub (hay pat : String) : Bool := lHasSub pat.data hay.data

/-- `get_weather_impact` (lines 312-332): normalize the weather code, then
the first configured key that occurs in it (in dict order) wins; 1.0 when
none matches. -/
def getWeatherImpact (sp : SeasonalPatterns) (weatherCode : String) : ℚ :=
  match sp.weatherImpact.find?
      (fun p => strHasSub ((weatherCode.toLower).replace "_" " ") p.1.toLower) with
  | some p => p.2
  | none => 1

/-- `get_product_lifecycle_multiplier` (lines 366-391): first phase whose
day range matches wins (`end = 730` is special-cased to an open range);
1.0 when no phase matches or the phase has no multiplier. -/
def getProductLifecycleMultiplier (sp : SeasonalPatterns) (daysSinceLaunch : ℤ) : ℚ :=
  match sp.lifecyclePhases.find? (fun ph =>
      if ph.2.2.1 = 730 then decide (ph.2.1 ≤ daysSinceLaunch)
      else decide (ph.2.1 ≤ daysSinceLaunch ∧ daysSinceLaunch ≤ ph.2.2.1)) with
  | some ph => ph.2.2.2.getD 1
  | none => 1

/-! ## `FeatureEngineer.create_features_for_sku`
(`feature_engineering.py` lines 30-136 and the seven group builders). -/

/-- The calendar data of a `datetime` as the Python code reads it:
`dayIndex` is an absolute day number (used for date subtraction),
`weekday` is 0 = Monday, and `isoWeek` is `isocalendar()[1]`. -/
structure PyDate where
  dayIndex : ℤ
  weekday : ℕ
  day : ℕ
  month : ℕ
  isoWeek : ℕ

/-- One festival row as produced by `get_festivals_in_range`: the year
lookup of the `dates` dict is modelled as the already-resolved
`festival_date` day number. -/
structure Festival where
  name : String
  festival_date : ℤ
  demand_multiplier : Option ℚ
  impact_window_days : Option ℤ

/-- The database and reference-data surroundings of one
`create_features_for_sku` call: the SKU's variant row, the parsed static
datasets, the festival calendar, the SKU's historical sales rows
`(sale_date, quantity_sold)`, the weather/trends rows per date, an oracle
for `statistics.stdev`, and per-group exception flags selecting the
handlers' branches. -/
structure FeatureWorld where
  today : ℤ
  variantExists : Bool
  categoryName : Option String
  createdDaysAgo : Option ℤ
  sp : SeasonalPatterns
  festivals : List Festival
  salesRows : List (ℤ × ℚ)
  stdevFn : List ℚ → ℚ
  weatherRawOn : ℤ → Option FRecord
  trendsRawOn : ℤ → Option FRecord
  seasonalFails : Bool
  festivalFails : Bool
  lifecycleFails : Bool
  historicalFails : Bool
  weatherFails : Bool
  trendsFails : Bool
  outerFails : Bool

/-- `_create_temporal_features` (lines 139-153). -/
def temporalFeatures (sp : SeasonalPatterns) (dt : PyDate) : FRecord :=
  [("day_of_week", .num dt.weekday),
   ("day_of_month", .num dt.day),
   ("month", .num dt.month),
   ("quarter", .num (((dt.month : ℤ) - 1) / 3 + 1 : ℤ)),
   ("week_of_year", .num dt.isoWeek),
   ("is_weekend", .num (if 5 ≤ dt.weekday then 1 else 0)),
   ("is_month_end", .num (if 25 ≤ dt.day then 1 else 0)),
   ("is_month_start", .num (if dt.day ≤ 5 then 1 else 0)),
   ("is_quarter_end", .num (if 25 ≤ dt.day ∧ dt.month % 3 = 0 then 1 else 0)),
   ("day_of_week_multiplier", .num (getDayOfWeekMultiplier sp dt.weekday)),
   ("month_multiplier", .num (getMonthMultiplier sp dt.month))]

/-- The season naming of lines 176-184. -/
def seasonOf (month : ℕ) : String :=
  if [11, 12, 1, 2].contains month then "winter"
  else if [3, 4, 5, 6].contains month then "summer"
  else if [7, 8, 9].contains month then "monsoon"
  else "spring"

/-- The two-key record returned by `_create_seasonal_features` when the
variant is missing (line 164) or its handler fires (line 194) — note it
omits `category_season_mult`. -/
def seasonalFallback : FRecord :=
  [("seasonal_multiplier", .num 1), ("season", .str "unknown")]

/-- `_create_seasonal_features` (lines 155-194). -/
def seasonalFeatures (fw : FeatureWorld) (dt : PyDate) : FRecord :=
  if fw.seasonalFails then seasonalFallback
  else if !fw.variantExists then seasonalFallback
  else
    let categoryName := fw.categoryName.getD "default"
    let sm := getSeasonalMultiplier fw.sp categoryName.toLower dt.month
    [("seasonal_multiplier", .num sm),
     ("season", .str (seasonOf dt.month)),
     ("category_season_mult", .num sm)]

/-- The initial/handler record of `_create_festival_features`
(lines 200-206 and 235-241). -/
def festRecordNone (daysTo : ℤ) : FRecord :=
  [("is_festival_week", .num 0), ("festival_name", .nil),
   ("festival_multiplier", .num 1), ("days_to_festival", .num daysTo),
   ("festival_impact_window", .num 0)]

/-- The record after a festival within its impact window is found
(lines 221-227). -/
def festRecordHit (nm : String) (mult : ℚ) (daysTo window : ℤ) : FRecord :=
  [("is_festival_week", .num 1), ("festival_name", .str nm),
   ("festival_multiplier", .num mult), ("days_to_festival", .num daysTo),
   ("festival_impact_window", .num window)]

/-- The `for festival in upcoming_festivals` loop of lines 212-230,
carrying the running `days_to_festival`; the first festival within its
impact window breaks the loop. -/
def festivalLoop (forecastDay : ℤ) (daysTo : ℤ) : List Festival → FRecord
  | [] => festRecordNone daysTo
  | f :: rest =>
    let daysDiff := f.festival_date - forecastDay
    let window := f.impact_window_days.getD 7
    if -window ≤ daysDiff ∧ daysDiff ≤ window then
      festRecordHit f.name (f.demand_multiplier.getD 1) daysDiff window
    else if 0 < daysDiff ∧ daysDiff < daysTo then festivalLoop forecastDay daysDiff rest
    else festivalLoop forecastDay daysTo rest

/-- Stable insertion by festival date (Python's stable sort by the ISO
date string in `get_festivals_in_range`). -/
def insertByDate (f : Festival) : List Festival → List Festival
  | [] => [f]
  | g :: gs => if f.festival_date ≤ g.festival_date then f :: g :: gs
               else g :: insertByDate f gs

/-- Sorted-by-date view of a festival list. -/
def sortFestivalsByDate : List Festival → List Festival
  | [] => []
  | f :: fs => insertByDate f (sortFestivalsByDate fs)

/-- `get_upcoming_festivals(days_ahead)` via `get_festivals_in_range`
(`data_loaders.py` lines 155-213): festivals dated within
`[today, today + days_ahead]`, sorted by date. -/
def upcomingFestivals (fw : FeatureWorld) (daysAhead : ℤ) : List Festival :=
  sortFestivalsByDate (fw.festivals.filter
    (fun f => decide (fw.today ≤ f.festival_date ∧ f.festival_date ≤ fw.today + daysAhead)))

/-- `_create_festival_features` (lines 196-241), scanning the festivals of
the next 60 days. -/
def festivalFeatures (fw : FeatureWorld) (dt : PyDate) : FRecord :=
  if fw.festivalFails then festRecordNone 999
  else festivalLoop dt.dayIndex 999 (upcomingFestivals fw 60)

/-- The default/handler record of `_create_product_lifecycle_features`
(lines 250-255 and 278-282). -/
def lifecycleDefaults : FRecord :=
  [("days_since_launch", .num 999), ("lifecycle_stage", .str "unknown"),
   ("lifecycle_multiplier", .num 1)]

/-- `_create_product_lifecycle_features` (lines 243-282);
`createdDaysAgo = none` models a missing variant `created_at`. -/
def lifecycleFeatures (fw : FeatureWorld) : FRecord :=
  if fw.lifecycleFails then lifecycleDefaults
  else if !fw.variantExists then lifecycleDefaults
  else
    match fw.createdDaysAgo with
    | none => lifecycleDefaults
    | some days =>
      let stage := if days < 30 then "launch"
        else if days < 180 then "growth"
        else if days < 730 then "maturity"
        else "decline"
      [("days_since_launch", .num days), ("lifecycle_stage", .str stage),
       ("lifecycle_multiplier", .num (getProductLifecycleMultiplier fw.sp days))]

/-- The base/handler record of `_create_historical_features`
(lines 290-298 and 355-363). -/
def histDefaults : FRecord :=
  [("avg_daily_sales_7d", .num 0), ("avg_daily_sales_30d", .num 0),
   ("avg_daily_sales_90d", .num 0), ("sales_trend_7d", .str "stable"),
   ("sales_volatility_7d", .num 0), ("days_since_last_sale", .num 999),
   ("stockout_occurred", .num 0)]

/-- `sale_date__range=[lo, hi]` filter on the SKU's sales rows. -/
def rowsInRange (rows : List (ℤ × ℚ)) (lo hi : ℤ) : List (ℤ × ℚ) :=
  rows.filter (fun r => decide (lo ≤ r.1 ∧ r.1 ≤ hi))

/-- `FeatureEngineer._calculate_trend` (lines 471-494). -/
def calculateTrend (values : List ℚ) : String :=
  if values.length < 2 then "stable"
  else
    let mid := values.length / 2
    if mid = 0 then "stable"
    else
      let firstHalf := (values.take mid).sum / (values.take mid).length
      let secondHalf := (values.drop mid).sum / (values.drop mid).length
      if firstHalf = 0 then "stable"
      else
        let changePct := (secondHalf - firstHalf) / firstHalf * 100
        if 10 < changePct then "increasing"
        else if changePct < -10 then "decreasing"
        else "stable"

/-- Stable insertion of a sales row by `sale_date`. -/
def insertRowByDate (r : ℤ × ℚ) : List (ℤ × ℚ) → List (ℤ × ℚ)
  | [] => [r]
  | s :: ss => if r.1 ≤ s.1 then r :: s :: ss else s :: insertRowByDate r ss

/-- `order_by('sale_date')` on the filtered rows. -/
def sortRowsByDate : List (ℤ × ℚ) → List (ℤ × ℚ)
  | [] => []
  | r :: rs => insertRowByDate r (sortRowsByDate rs)

/-- `order_by('-sale_date').first()`'s date: the latest sale date of the
filtered rows, if any. -/
def latestSaleDate (rows : List (ℤ × ℚ)) : Option ℤ :=
  rows.foldl (fun acc r =>
    match acc with
    | none => some r.1
    | some d => some (max d r.1)) none

/-- `_create_historical_features` (lines 284-363); `stdevFn` is the
world's oracle for the floating `statistics.stdev` result. -/
def historicalFeatures (fw : FeatureWorld) (dt : PyDate) : FRecord :=
  if fw.historicalFails then histDefaults
  else
    let endDate := dt.dayIndex - 1
    let sales7 := rowsInRange fw.salesRows (endDate - 6) endDate
    let sales30 := rowsInRange fw.salesRows (endDate - 29) endDate
    let sales90 := rowsInRange fw.salesRows (endDate - 89) endDate
    let avg7 : ℚ := if sales7.isEmpty then 0 else (sales7.map (·.2)).sum / sales7.length
    let avg30 : ℚ := if sales30.isEmpty then 0 else (sales30.map (·.2)).sum / sales30.length
    let avg90 : ℚ := if sales90.isEmpty then 0 else (sales90.map (·.2)).sum / sales90.length
    let values := (sortRowsByDate sales7).map (·.2)
    let trend := if 2 ≤ sales7.length then calculateTrend values else "stable"
    let volatility : ℚ := if 2 ≤ sales7.length ∧ 1 < values.length then fw.stdevFn values else 0
    let daysSince : ℚ :=
      match latestSaleDate sales7 with
      | none => 999
      | some d => ((max (endDate - d) 0 : ℤ) : ℚ)
    [("avg_daily_sales_7d", .num avg7), ("avg_daily_sales_30d", .num avg30),
     ("avg_daily_sales_90d", .num avg90), ("sales_trend_7d", .str trend),
     ("sales_volatility_7d", .num volatility), ("days_since_last_sale", .num daysSince),
     ("stockout_occurred", .num 0)]

/-- The base/handler record of `_create_weather_features`
(lines 371-379 and 410-419). -/
def weatherDefaults : FRecord :=
  [("temperature", .nil), ("humidity", .nil), ("precipitation", .nil),
   ("weather_code", .nil), ("temperature_impact", .num 1),
   ("weather_impact", .num 1), ("has_weather_data", .boolean false)]

/-- `_create_weather_features` (lines 365-419): `weatherRawOn` gives the
`raw_data` dict of the weather row for the forecast date when one exists
and is a dict (`none` otherwise); a truthy non-numeric temperature makes
`get_temperature_impact`'s comparisons raise, caught by the handler. -/
def weatherFeatures (fw : FeatureWorld) (dt : PyDate) : FRecord :=
  if fw.weatherFails then weatherDefaults
  else
    match fw.weatherRawOn dt.dayIndex with
    | none => weatherDefaults
    | some raw =>
      let tempV := (raw.get "temperature").getD .nil
      let humV := (raw.get "humidity").getD .nil
      let precV := (raw.get "precipitation").getD .nil
      let codeV := (raw.get "weather_code").getD .nil
      if fvTruthy tempV ∧ fvAsNum tempV = none then weatherDefaults
      else
        let tempImpact : ℚ :=
          if fvTruthy tempV then getTemperatureImpact fw.sp ((fvAsNum tempV).getD 0)
          else 1
        let wImpact : ℚ :=
          if fvTruthy codeV then getWeatherImpact fw.sp (pyStr codeV) else 1
        [("temperature", tempV), ("humidity", humV), ("precipitation", precV),
         ("weather_code", codeV), ("temperature_impact", .num tempImpact),
         ("weather_impact", .num wImpact), ("has_weather_data", .boolean true)]

/-- The base/handler record of `_create_trends_features`
(lines 428-432 and 465-469). -/
def trendsBase : FRecord :=
  [("trend_score", .num 50), ("trend_direction", .str "stable"),
   ("has_trend_data", .boolean false)]

/-- `_create_trends_features` (lines 421-469): `trendsRawOn` gives the
`raw_data` dict of the latest matching trends row, when one exists. -/
def trendsFeatures (fw : FeatureWorld) (dt : PyDate) : FRecord :=
  if fw.trendsFails then trendsBase
  else if !fw.variantExists then trendsBase
  else
    match fw.categoryName with
    | none => trendsBase
    | some _ =>
      match fw.trendsRawOn dt.dayIndex with
      | none => trendsBase
      | some raw =>
        [("trend_score", (raw.get "score").getD (.num 50)),
         ("trend_direction", (raw.get "direction").getD (.str "stable")),
         ("has_trend_data", .boolean true)]

/-- `FeatureEngineer._get_default_features` (lines 86-136): the full
default record returned when the whole assembly fails. -/
def defaultFeatures (dt : PyDate) : FRecord :=
  [("day_of_week", .num dt.weekday), ("day_of_month", .num dt.day),
   ("month", .num dt.month),
   ("quarter", .num (((dt.month : ℤ) - 1) / 3 + 1 : ℤ)),
   ("week_of_year", .num dt.isoWeek),
   ("is_weekend", .num (if 5 ≤ dt.weekday then 1 else 0)),
   ("is_month_end", .num (if 25 ≤ dt.day then 1 else 0)),
   ("is_month_start", .num (if dt.day ≤ 5 then 1 else 0)),
   ("is_quarter_end", .num (if 25 ≤ dt.day ∧ dt.month % 3 = 0 then 1 else 0)),
   ("day_of_week_multiplier", .num 1), ("month_multiplier", .num 1),
   ("seasonal_multiplier", .num 1), ("season", .str "unknown"),
   ("category_season_mult", .num 1),
   ("is_festival_week", .num 0), ("festival_name", .nil),
   ("festival_multiplier", .num 1), ("days_to_festival", .num 999),
   ("festival_impact_window", .num 0),
   ("days_since_launch", .num 999), ("lifecycle_stage", .str "unknown"),
   ("lifecycle_multiplier", .num 1),
   ("avg_daily_sales_7d", .num 0), ("avg_daily_sales_30d", .num 0),
   ("avg_daily_sales_90d", .num 0), ("sales_trend_7d", .str "stable"),
   ("sales_volatility_7d", .num 0), ("days_since_last_sale", .num 999),
   ("stockout_occurred", .num 0),
   ("temperature", .nil), ("humidity", .nil), ("precipitation", .nil),
   ("weather_code", .nil), ("temperature_impact", .num 1),
   ("weather_impact", .num 1), ("has_weather_data", .boolean false),
   ("trend_score", .num 50), ("trend_direction", .str "stable"),
   ("has_trend_data", .boolean false)]

/-- `create_features_for_sku` (lines 30-84): the seven groups are merged
with `features.update(...)`; their key sets are disjoint, so the merge is
concatenation. `outerFails` models an exception escaping the unguarded
parts (e.g. `_create_temporal_features`), answered by the full default
record. -/
def createFeaturesForSku (fw : FeatureWorld) (dt : PyDate)
    (includeExternal includeWeather includeTrends : Bool) : FRecord :=
  if fw.outerFails then defaultFeatures dt
  else
    temporalFeatures fw.sp dt
      ++ (seasonalFeatures fw dt
      ++ ((if includeExternal then festivalFeatures fw dt else [])
      ++ (lifecycleFeatures fw
      ++ (historicalFeatures fw dt
      ++ ((if includeWeather then weatherFeatures fw dt else [])
      ++ (if includeTrends then trendsFeatures fw dt else []))))))

/-! ## Claim C2: lemmas about the assembled record -/

theorem get_append_some {a : FRecord} {k : String} {v : FVal} (b : FRecord)
    (h : a.get k = some v) : (a ++ b).get k = some v := by
  induction a with
  | nil => cases h
  | cons p rest ih =>
    obtain ⟨k', v'⟩ := p
    simp only [List.cons_append, FRecord.get] at h ⊢
    by_cases hk : k' = k
    · rwa [if_pos hk] at h ⊢
    · rw [if_neg hk] at h ⊢
      exact ih h

theorem get_append_none {a : FRecord} {k : String} (b : FRecord)
    (h : a.get k = none) : (a ++ b).get k = b.get k := by
  induction a with
  | nil => rfl
  | cons p rest ih =>
    obtain ⟨k', v'⟩ := p
    simp only [List.cons_append, FRecord.get] at h ⊢
    by_cases hk : k' = k
    · rw [if_pos hk] at h
      cases h
    · rw [if_neg hk] at h ⊢
      exact ih h

theorem lookupQ_pos {l : List (String × ℚ)} {k : String} {d : ℚ}
    (hl : ∀ p ∈ l, 0 < p.2) (hd : 0 < d) : 0 < lookupQ l k d := by
  unfold lookupQ
  cases h : l.find? (fun p => decide (p.1 = k)) with
  | none => exact hd
  | some p => exact hl p (List.mem_of_find?_eq_some h)

theorem getDayOfWeekMultiplier_pos {sp : SeasonalPatterns}
    (h : ∀ p ∈ sp.dayOfWeekPatterns, 0 < p.2) (wd : ℕ) :
    0 < getDayOfWeekMultiplier sp wd := by
  unfold getDayOfWeekMultiplier
  split_ifs
  · exact one_pos
  · exact lookupQ_pos h one_pos

theorem getMonthMultiplier_pos {sp : SeasonalPatterns}
    (h : ∀ p ∈ sp.monthPatterns, 0 < p.2) (m : ℕ) :
    0 < getMonthMultiplier sp m := by
  unfold getMonthMultiplier
  split_ifs
  · exact one_pos
  · exact lookupQ_pos h one_pos

theorem getSeasonalMultiplier_pos {sp : SeasonalPatterns}
    (h : ∀ s ∈ sp.seasons, ∀ p ∈ s.2.2, 0 < p.2) (cat : String) (m : ℕ) :
    0 < getSeasonalMultiplier sp cat m := by
  unfold getSeasonalMultiplier
  cases hf : sp.seasons.find? (fun s => s.2.1.contains m) with
  | none => exact one_pos
  | some s => exact lookupQ_pos (h s (List.mem_of_find?_eq_some hf)) one_pos

theorem getTemperatureImpact_pos {sp : SeasonalPatterns}
    (h : ∀ p ∈ sp.tempImpact, 0 < p.2) (t : ℚ) :
    0 < getTemperatureImpact sp t := by
  unfold getTemperatureImpact
  split_ifs <;> exact lookupQ_pos h one_pos

theorem getWeatherImpact_pos {sp : SeasonalPatterns}
    (h : ∀ p ∈ sp.weatherImpact, 0 < p.2) (code : String) :
    0 < getWeatherImpact sp code := by
  unfold getWeatherImpact
  cases hf : sp.weatherImpact.find?
      (fun p => strHasSub ((code.toLower).replace "_" " ") p.1.toLower) with
  | none => exact one_pos
  | some p => exact h p (List.mem_of_find?_eq_some hf)

theorem getProductLifecycleMultiplier_pos {sp : SeasonalPatterns}
    (h : ∀ ph ∈ sp.lifecyclePhases, ∀ q, ph.2.2.2 = some q → 0 < q) (days : ℤ) :
    0 < getProductLifecycleMultiplier sp days := by
  unfold getProductLifecycleMultiplier
  cases hf : sp.lifecyclePhases.find? (fun ph =>
      if ph.2.2.1 = 730 then decide (ph.2.1 ≤ days)
      else decide (ph.2.1 ≤ days ∧ days ≤ ph.2.2.1)) with
  | none => exact one_pos
  | some ph =>
    show 0 < ph.2.2.2.getD 1
    cases hm : ph.2.2.2 with
    | none => exact one_pos
    | some q =>
      simpa using h ph (List.mem_of_find?_eq_some hf) q hm

theorem mem_insertByDate {g f : Festival} : ∀ {l : List Festival},
    g ∈ insertByDate f l → g = f ∨ g ∈ l := by
  intro l
  induction l with
  | nil =>
    intro h
    exact Or.inl (List.mem_singleton.mp h)
  | cons a t ih =>
    intro h
    unfold insertByDate at h
    split_ifs at h
    · rcases List.mem_cons.mp h with h' | h'
      · exact Or.inl h'
      · exact Or.inr h'
    · rcases List.mem_cons.mp h with h' | h'
      · exact Or.inr (h' ▸ List.mem_cons_self a t)
      · rcases ih h' with h'' | h''
        · exact Or.inl h''
        · exact Or.inr (List.mem_cons_of_mem a h'')

theorem mem_sortFestivalsByDate {g : Festival} : ∀ {l : List Festival},
    g ∈ sortFestivalsByDate l → g ∈ l := by
  intro l
  induction l with
  | nil => intro h; cases h
  | cons a t ih =>
    intro h
    unfold sortFestivalsByDate at h
    rcases mem_insertByDate h with h' | h'
    · exact h' ▸ List.mem_cons_self a t
    · exact List.mem_cons_of_mem a (ih h')

theorem upcomingFestivals_sub {fw : FeatureWorld} {daysAhead : ℤ} {g : Festival}
    (h : g ∈ upcomingFestivals fw daysAhead) : g ∈ fw.festivals :=
  (List.mem_filter.mp (mem_sortFestivalsByDate h)).1

theorem festivalLoop_mult (fd : ℤ) (fs : List Festival)
    (hpos : ∀ f ∈ fs, ∀ q, f.demand_multiplier = some q → 0 < q) :
    ∀ dTo : ℤ, ∃ q, (festivalLoop fd dTo fs).get "festival_multiplier" = some (.num q) ∧ 0 < q := by
  induction fs with
  | nil => intro dTo; exact ⟨1, rfl, one_pos⟩
  | cons f rest ih =>
    intro dTo
    simp only [festivalLoop]
    split_ifs with h1 h2
    · refine ⟨f.demand_multiplier.getD 1, rfl, ?_⟩
      cases hmq : f.demand_multiplier with
      | none => exact one_pos
      | some q => simpa using hpos f (List.mem_cons_self f rest) q hmq
    · exact ih (fun f' hf' => hpos f' (List.mem_cons_of_mem f hf')) _
    · exact ih (fun f' hf' => hpos f' (List.mem_cons_of_mem f hf')) _

theorem festivalLoop_get_lm (fd : ℤ) (fs : List Festival) :
    ∀ dTo : ℤ, (festivalLoop fd dTo fs).get "lifecycle_multiplier" = none := by
  induction fs with
  | nil => intro dTo; rfl
  | cons f rest ih =>
    intro dTo
    simp only [festivalLoop]
    split_ifs
    · rfl
    · exact ih _
    · exact ih _

theorem festivalLoop_get_ti (fd : ℤ) (fs : List Festival) :
    ∀ dTo : ℤ, (festivalLoop fd dTo fs).get "temperature_impact" = none := by
  induction fs with
  | nil => intro dTo; rfl
  | cons f rest ih =>
    intro dTo
    simp only [festivalLoop]
    split_ifs
    · rfl
    · exact ih _
    · exact ih _

theorem festivalLoop_get_wi (fd : ℤ) (fs : List Festival) :
    ∀ dTo : ℤ, (festivalLoop fd dTo fs).get "weather_impact" = none := by
  induction fs with
  | nil => intro dTo; rfl
  | cons f rest ih =>
    intro dTo
    simp only [festivalLoop]
    split_ifs
    · rfl
    · exact ih _
    · exact ih _

theorem seasonalFeatures_get_fm (fw : FeatureWorld) (dt : PyDate) :
    (seasonalFeatures fw dt).get "festival_multiplier" = none := by
  unfold seasonalFeatures
  split_ifs <;> rfl

theorem seasonalFeatures_get_lm (fw : FeatureWorld) (dt : PyDate) :
    (seasonalFeatures fw dt).get "lifecycle_multiplier" = none := by
  unfold seasonalFeatures
  split_ifs <;> rfl

theorem seasonalFeatures_get_ti (fw : FeatureWorld) (dt : PyDate) :
    (seasonalFeatures fw dt).get "temperature_impact" = none := by
  unfold seasonalFeatures
  split_ifs <;> rfl

theorem seasonalFeatures_get_wi (fw : FeatureWorld) (dt : PyDate) :
    (seasonalFeatures fw dt).get "weather_impact" = none := by
  unfold seasonalFeatures
  split_ifs <;> rfl

theorem festivalFeatures_get_lm (fw : FeatureWorld) (dt : PyDate) :
    (festivalFeatures fw dt).get "lifecycle_multiplier" = none := by
  unfold festivalFeatures
  split_ifs
  · rfl
  · exact festivalLoop_get_lm _ _ _

theorem festivalFeatures_get_ti (fw : FeatureWorld) (dt : PyDate) :
    (festivalFeatures fw dt).get "temperature_impact" = none := by
  unfold festivalFeatures
  split_ifs
  · rfl
  · exact festivalLoop_get_ti _ _ _

theorem festivalFeatures_get_wi (fw : FeatureWorld) (dt : PyDate) :
    (festivalFeatures fw dt).get "weather_impact" = none := by
  unfold festivalFeatures
  split_ifs
  · rfl
  · exact festivalLoop_get_wi _ _ _

theorem lifecycleFeatures_get_ti (fw : FeatureWorld) :
    (lifecycleFeatures fw).get "temperature_impact" = none := by
  unfold lifecycleFeatures
  split_ifs
  · rfl
  · rfl
  · cases fw.createdDaysAgo <;> rfl

theorem lifecycleFeatures_get_wi (fw : FeatureWorld) :
    (lifecycleFeatures fw).get "weather_impact" = none := by
  unfold lifecycleFeatures
  split_ifs
  · rfl
  · rfl
  · cases fw.createdDaysAgo <;> rfl

theorem historicalFeatures_get_ti (fw : FeatureWorld) (dt : PyDate) :
    (historicalFeatures fw dt).get "temperature_impact" = none := by
  unfold historicalFeatures
  split_ifs <;> rfl

theorem historicalFeatures_get_wi (fw : FeatureWorld) (dt : PyDate) :
    (historicalFeatures fw dt).get "weather_impact" = none := by
  unfold historicalFeatures
  split_ifs <;> rfl

theorem seasonalFeatures_sm_pos (fw : FeatureWorld) (dt : PyDate)
    (h : ∀ s ∈ fw.sp.seasons, ∀ p ∈ s.2.2, 0 < p.2) :
    ∃ q, (seasonalFeatures fw dt).get "seasonal_multiplier" = some (.num q) ∧ 0 < q := by
  unfold seasonalFeatures
  split_ifs
  · exact ⟨1, rfl, one_pos⟩
  · exact ⟨1, rfl, one_pos⟩
  · exact ⟨_, rfl, getSeasonalMultiplier_pos h _ _⟩

theorem festivalFeatures_fm_pos (fw : FeatureWorld) (dt : PyDate)
    (h : ∀ f ∈ fw.festivals, ∀ q, f.demand_multiplier = some q → 0 < q) :
    ∃ q, (festivalFeatures fw dt).get "festival_multiplier" = some (.num q) ∧ 0 < q := by
  unfold festivalFeatures
  split_ifs
  · exact ⟨1, rfl, one_pos⟩
  · exact festivalLoop_mult _ _
      (fun f hf q hq => h f (upcomingFestivals_sub hf) q hq) _

theorem lifecycleFeatures_lm_pos (fw : FeatureWorld)
    (h : ∀ ph ∈ fw.sp.lifecyclePhases, ∀ q, ph.2.2.2 = some q → 0 < q) :
    ∃ q, (lifecycleFeatures fw).get "lifecycle_multiplier" = some (.num q) ∧ 0 < q := by
  unfold lifecycleFeatures
  split_ifs
  · exact ⟨1, rfl, one_pos⟩
  · exact ⟨1, rfl, one_pos⟩
  · cases hc : fw.createdDaysAgo with
    | none => exact ⟨1, rfl, one_pos⟩
    | some days => exact ⟨_, rfl, getProductLifecycleMultiplier_pos h days⟩

theorem weatherFeatures_ti_pos (fw : FeatureWorld) (dt : PyDate)
    (h : ∀ p ∈ fw.sp.tempImpact, 0 < p.2) :
    ∃ q, (weatherFeatures fw dt).get "temperature_impact" = some (.num q) ∧ 0 < q := by
  unfold weatherFeatures
  by_cases hf : fw.weatherFails
  · rw [if_pos hf]
    exact ⟨1, rfl, one_pos⟩
  · rw [if_neg hf]
    cases hr : fw.weatherRawOn dt.dayIndex with
    | none => exact ⟨1, rfl, one_pos⟩
    | some raw =>
      simp only
      split_ifs <;> first
        | exact ⟨1, rfl, one_pos⟩
        | exact ⟨_, rfl, getTemperatureImpact_pos h _⟩

theorem weatherFeatures_wi_pos (fw : FeatureWorld) (dt : PyDate)
    (h : ∀ p ∈ fw.sp.weatherImpact, 0 < p.2) :
    ∃ q, (weatherFeatures fw dt).get "weather_impact" = some (.num q) ∧ 0 < q := by
  unfold weatherFeatures
  by_cases hf : fw.weatherFails
  · rw [if_pos hf]
    exact ⟨1, rfl, one_pos⟩
  · rw [if_neg hf]
    cases hr : fw.weatherRawOn dt.dayIndex with
    | none => exact ⟨1, rfl, one_pos⟩
    | some raw =>
      simp only
      split_ifs <;> first
        | exact ⟨1, rfl, one_pos⟩
        | exact ⟨_, rfl, getWeatherImpact_pos h _⟩

theorem createFeatures_fails {fw : FeatureWorld} (dt : PyDate)
    (ho : fw.outerFails = true) (a b c : Bool) :
    createFeaturesForSku fw dt a b c = defaultFeatures dt := by
  unfold createFeaturesForSku
  rw [ho]
  rfl

theorem createFeatures_true {fw : FeatureWorld} (dt : PyDate)
    (ho : fw.outerFails = false) :
    createFeaturesForSku fw dt true true true
      = temporalFeatures fw.sp dt ++ (seasonalFeatures fw dt ++ (festivalFeatures fw dt
        ++ (lifecycleFeatures fw ++ (historicalFeatures fw dt
        ++ (weatherFeatures fw dt ++ trendsFeatures fw dt))))) := by
  unfold createFeaturesForSku
  rw [ho]
  rfl

/-- The keyed record value is a strictly positive number. -/
abbrev posNumAt (r : FRecord) (k : String) : Prop :=
  ∃ q : ℚ, r.get k = some (.num q) ∧ 0 < q

/-- All multipliers occurring in the loaded reference data are strictly
positive: day-of-week and month patterns, seasonal category multipliers,
temperature and weather impacts, lifecycle phase multipliers, and festival
demand multipliers. -/
def PositiveRefData (fw : FeatureWorld) : Prop :=
  (∀ p ∈ fw.sp.dayOfWeekPatterns, 0 < p.2)
  ∧ (∀ p ∈ fw.sp.monthPatterns, 0 < p.2)
  ∧ (∀ s ∈ fw.sp.seasons, ∀ p ∈ s.2.2, 0 < p.2)
  ∧ (∀ p ∈ fw.sp.tempImpact, 0 < p.2)
  ∧ (∀ p ∈ fw.sp.weatherImpact, 0 < p.2)
  ∧ (∀ ph ∈ fw.sp.lifecyclePhases, ∀ q, ph.2.2.2 = some q → 0 < q)
  ∧ (∀ f ∈ fw.festivals, ∀ q, f.demand_multiplier = some q → 0 < q)

/-- A fixed forecast date for the concrete worlds. -/
def dt0 : PyDate :=
  { dayIndex := 0, weekday := 0, day := 1, month := 1, isoWeek := 1 }

/-- The empty reference dataset (everything falls back to 1.0 lookups). -/
def spEmpty : SeasonalPatterns :=
  { seasons := [], dayOfWeekPatterns := [], monthPatterns := [],
    weatherImpact := [], tempImpact := [], lifecyclePhases := [] }

/-- A world whose SKU has no `ProductVariant` row (an unknown SKU), with
no failures anywhere. -/
def fwNoVar : FeatureWorld :=
  { today := 0, variantExists := false, categoryName := none,
    createdDaysAgo := none, sp := spEmpty, festivals := [], salesRows := [],
    stdevFn := fun _ => 0, weatherRawOn := fun _ => none,
    trendsRawOn := fun _ => none, seasonalFails := false,
    festivalFails := false, lifecycleFails := false, historicalFails := false,
    weatherFails := false, trendsFails := false, outerFails := false }

/-- Claim C2, counterexample: `category_season_mult` belongs to the
documented default key set (`_get_default_features`), but for a SKU with
no variant row the seasonal group returns its two-key fallback and the
assembled record omits `category_season_mult` — the record is partial. -/
theorem c2_counterexample :
    (defaultFeatures dt0).get "category_season_mult" = some (.num 1)
    ∧ (createFeaturesForSku fwNoVar dt0 true true true).get "category_season_mult" = none := by
  constructor
  · rfl
  · rfl

/-- Claim C2 (amended): `create_features_for_sku` is total (never raises),
and when every multiplier in the loaded reference data is strictly
positive, the assembled record always carries each of the seven multiplier
keys with a strictly positive numeric value; however (see the
counterexample) the seasonal group's fallback omits `category_season_mult`,
so the full documented default key set is not always present. -/
theorem c2_amended_thm (fw : FeatureWorld) (dt : PyDate) (h : PositiveRefData fw) :
    posNumAt (createFeaturesForSku fw dt true true true) "seasonal_multiplier"
    ∧ posNumAt (createFeaturesForSku fw dt true true true) "festival_multiplier"
    ∧ posNumAt (createFeaturesForSku fw dt true true true) "day_of_week_multiplier"
    ∧ posNumAt (createFeaturesForSku fw dt true true true) "month_multiplier"
    ∧ posNumAt (createFeaturesForSku fw dt true true true) "lifecycle_multiplier"
    ∧ posNumAt (createFeaturesForSku fw dt true true true) "temperature_impact"
    ∧ posNumAt (createFeaturesForSku fw dt true true true) "weather_impact" := by
  obtain ⟨h1, h2, h3, h4, h5, h6, h7⟩ := h
  cases ho : fw.outerFails with
  | true =>
    rw [createFeatures_fails dt ho]
    exact ⟨⟨1, rfl, one_pos⟩, ⟨1, rfl, one_pos⟩, ⟨1, rfl, one_pos⟩,
      ⟨1, rfl, one_pos⟩, ⟨1, rfl, one_pos⟩, ⟨1, rfl, one_pos⟩, ⟨1, rfl, one_pos⟩⟩
  | false =>
    rw [createFeatures_true dt ho]
    refine ⟨?_, ?_, ?_, ?_, ?_, ?_, ?_⟩
    · obtain ⟨q, hq, hqpos⟩ := seasonalFeatures_sm_pos fw dt h3
      refine ⟨q, ?_, hqpos⟩
      rw [get_append_none _ (rfl :
        (temporalFeatures fw.sp dt).get "seasonal_multiplier" = none)]
      exact get_append_some _ hq
    · obtain ⟨q, hq, hqpos⟩ := festivalFeatures_fm_pos fw dt h7
      refine ⟨q, ?_, hqpos⟩
      rw [get_append_none _ (rfl :
        (temporalFeatures fw.sp dt).get "festival_multiplier" = none)]
      rw [get_append_none _ (seasonalFeatures_get_fm fw dt)]
      exact get_append_some _ hq
    · refine ⟨getDayOfWeekMultiplier fw.sp dt.weekday, ?_,
        getDayOfWeekMultiplier_pos h1 _⟩
      exact get_append_some _ (rfl :
        (temporalFeatures fw.sp dt).get "day_of_week_multiplier"
          = some (.num (getDayOfWeekMultiplier fw.sp dt.weekday)))
    · refine ⟨getMonthMultiplier fw.sp dt.month, ?_, getMonthMultiplier_pos h2 _⟩
      exact get_append_some _ (rfl :
        (temporalFeatures fw.sp dt).get "month_multiplier"
          = some (.num (getMonthMultiplier fw.sp dt.month)))
    · obtain ⟨q, hq, hqpos⟩ := lifecycleFeatures_lm_pos fw h6
      refine ⟨q, ?_, hqpos⟩
      rw [get_append_none _ (rfl :
        (temporalFeatures fw.sp dt).get "lifecycle_multiplier" = none)]
      rw [get_append_none _ (seasonalFeatures_get_lm fw dt)]
      rw [get_append_none _ (festivalFeatures_get_lm fw dt)]
      exact get_append_some _ hq
    · obtain ⟨q, hq, hqpos⟩ := weatherFeatures_ti_pos fw dt h4
      refine ⟨q, ?_, hqpos⟩
      rw [get_append_none _ (rfl :
        (temporalFeatures fw.sp dt).get "temperature_impact" = none)]
      rw [get_append_none _ (seasonalFeatures_get_ti fw dt)]
      rw [get_append_none _ (festivalFeatures_get_ti fw dt)]
      rw [get_append_none _ (lifecycleFeatures_get_ti fw)]
      rw [get_append_none _ (historicalFeatures_get_ti fw dt)]
      exact get_append_some _ hq
    · obtain ⟨q, hq, hqpos⟩ := weatherFeatures_wi_pos fw dt h5
      refine ⟨q, ?_, hqpos⟩
      rw [get_append_none _ (rfl :
        (temporalFeatures fw.sp dt).get "weather_impact" = none)]
      rw [get_append_none _ (seasonalFeatures_get_wi fw dt)]
      rw [get_append_none _ (festivalFeatures_get_wi fw dt)]
      rw [get_append_none _ (lifecycleFeatures_get_wi fw)]
      rw [get_append_none _ (historicalFeatures_get_wi fw dt)]
      exact get_append_some _ hq

/-- A world with an existing variant and the empty (hence trivially
positive) reference dataset. -/
def fwPos : FeatureWorld :=
  { today := 0, variantExists := true, categoryName := none,
    createdDaysAgo := some 50, sp := spEmpty, festivals := [], salesRows := [],
    stdevFn := fun _ => 0, weatherRawOn := fun _ => none,
    trendsRawOn := fun _ => none, seasonalFails := false,
    festivalFails := false, lifecycleFails := false, historicalFails := false,
    weatherFails := false, trendsFails := false, outerFails := false }

/-- Witness for `c2_amended_thm` on the concrete world `fwPos`. -/
theorem c2_amended_witness :
    posNumAt (createFeaturesForSku fwPos dt0 true true true) "seasonal_multiplier"
    ∧ posNumAt (createFeaturesForSku fwPos dt0 true true true) "festival_multiplier"
    ∧ posNumAt (createFeaturesForSku fwPos dt0 true true true) "day_of_week_multiplier"
    ∧ posNumAt (createFeaturesForSku fwPos dt0 true true true) "month_multiplier"
    ∧ posNumAt (createFeaturesForSku fwPos dt0 true true true) "lifecycle_multiplier"
    ∧ posNumAt (createFeaturesForSku fwPos dt0 true true true) "temperature_impact"
    ∧ posNumAt (createFeaturesForSku fwPos dt0 true true true) "weather_impact" :=
  c2_amended_thm fwPos dt0
    (by refine ⟨?_, ?_, ?_, ?_, ?_, ?_, ?_⟩ <;> simp [fwPos, spEmpty])

/-! ## `PredictionService.get_demand_forecast`
(`prediction_service.py` lines 28-157). The Django cache is modelled as an
association list of string keys (`cache.get` = first-match lookup,
`cache.set` = prepend); "while the first result is still cached" in the
claims corresponds to the entry being present, the 6-hour TTL expiry being
the only way an entry disappears. The success path is modelled; the
lines 132-157 handler returns without writing to the cache, so a claim
conditioned on the result being cached is about the success path. -/

/-- The forecast result dictionary of lines 115-126; dates are modelled as
day offsets from the generation time. -/
structure ForecastResult where
  sku : String
  product_name : String
  forecast_start_offset : ℕ
  forecast_end_offset : ℕ
  forecasts : List DayForecast
  current_stock : ℤ
  days_until_stockout : ℚ
  recommended_reorder : ℤ
  model_type : String
deriving DecidableEq

/-- The forecast cache: key to cached result, most recent entry first. -/
abbrev Cache := List (String × ForecastResult)

/-- `cache.get(key)`. -/
def cacheGet : Cache → String → Option ForecastResult
  | [], _ => none
  | (k', v) :: rest, k => if k' = k then some v else cacheGet rest k

/-- `cache.set(key, value, ttl)`. -/
def cacheSet (c : Cache) (k : String) (v : ForecastResult) : Cache := (k, v) :: c

/-- Line 47: the cache key is built from the SKU code and the horizon
only — the model type does not appear in it. -/
def cacheKey (sku : String) (daysAhead : ℕ) : String :=
  "forecast:demand:" ++ sku ++ ":" ++ toString daysAhead

/-- `PredictionService._get_default_features` (lines 672-687), used when
`create_features_for_sku` raises. -/
def predictionDefaultFeatures : FRecord :=
  [("seasonal_multiplier", .num 1), ("festival_multiplier", .num 1),
   ("day_of_week_multiplier", .num 1), ("month_multiplier", .num 1),
   ("lifecycle_multiplier", .num 1), ("temperature_impact", .num 1),
   ("weather_impact", .num 1), ("sales_volatility_7d", .num 0),
   ("is_festival_week", .boolean false), ("festival_name", .nil),
   ("sales_trend_7d", .str "stable")]

/-- `_get_baseline_demand` (lines 689-701): the 30-day average of
`quantity_sold`, with `avg or 10.0` (both a missing average and a zero
average give 10.0). -/
def getBaselineDemand (sales30 : List ℚ) : ℚ :=
  let avg : ℚ := if sales30.isEmpty then 0 else sales30.sum / sales30.length
  if avg = 0 then 10 else avg

/-- The database surroundings of one `get_demand_forecast` call: the
feature-engineering world, the calendar data of `today + offset` per day
offset, the variant's product name and stock, the active model type, the
trailing 30-day sales, and the flag for the per-day feature try/except of
lines 72-76. -/
structure PredWorld where
  fw : FeatureWorld
  dateOf : ℕ → PyDate
  productName : Option String
  activeModel : Option String
  sales30 : List ℚ
  stock : ℤ
  featureFails : Bool

/-- `get_demand_forecast` (lines 28-130, success path): returns the result
and the cache after the call. A cached entry is returned as-is (lines
47-50); otherwise the result is computed and cached for 6 hours
(line 129). -/
def getDemandForecast (w : PredWorld) (c : Cache) (sku : String)
    (daysAhead : ℕ) (modelType : Option String) (includeConfidence : Bool) :
    ForecastResult × Cache :=
  match cacheGet c (cacheKey sku daysAhead) with
  | some cached => (cached, c)
  | none =>
    let mt := match modelType with
      | some m => m
      | none => w.activeModel.getD "moving_average"
    let baseline := getBaselineDemand w.sales30
    let fcs := (List.range' 1 daysAhead).map (fun off =>
      generateSingleForecast baseline
        (if w.featureFails then predictionDefaultFeatures
         else createFeaturesForSku w.fw (w.dateOf off) true true true)
        mt includeConfidence off)
    let fcs := if fcs.isEmpty then
        (List.range' 1 (min daysAhead 7)).map (fun off =>
          { date := off, predicted_quantity := 10, confidence_lower := 5,
            confidence_upper := 15, model_type := mt,
            influencing_factors := ["Using default forecast - insufficient data"] })
      else fcs
    let result : ForecastResult :=
      { sku := sku
        product_name := w.productName.getD "Unknown"
        forecast_start_offset := 1
        forecast_end_offset := daysAhead
        forecasts := fcs
        current_stock := w.stock
        days_until_stockout := calculateDaysToStockout w.stock fcs
        recommended_reorder := calculateReorderQuantity fcs
        model_type := mt }
    (result, cacheSet c (cacheKey sku daysAhead) result)

/-- The `next_7d_demand`-based alert decision applied to a full forecast
result, as `generate_alerts` does at lines 367-385. -/
def alertForForecast (fr : ForecastResult) : Option (String × String) :=
  alertDecision fr.current_stock fr.days_until_stockout
    (((fr.forecasts.take 7).map (·.predicted_quantity)).sum)

/-- Claim C9: calling `get_demand_forecast` twice with identical inputs
while the first result is still cached returns a result identical to the
first call's result (whatever the initial cache holds: a prior hit is
returned again, and a fresh result is found in the cache on the second
call). -/
theorem c9_thm (w : PredWorld) (c : Cache) (sku : String) (d : ℕ)
    (mt : Option String) (ic : Bool) :
    (getDemandForecast w ((getDemandForecast w c sku d mt ic).2) sku d mt ic).1
      = (getDemandForecast w c sku d mt ic).1 := by
  unfold getDemandForecast
  cases h : cacheGet c (cacheKey sku d) with
  | some r => simp [h]
  | none => simp [h, cacheSet, cacheGet]

/-- Claim C10: the cache key is built only from the SKU code and the
horizon, so a second call with a different model type while the first
result is cached returns the first result — including its `model_type`
field, which is the first call's model type. -/
theorem c10_thm (w : PredWorld) (c : Cache) (sku : String) (d : ℕ)
    (m1 m2 : String) (ic ic' : Bool)
    (h : cacheGet c (cacheKey sku d) = none) :
    (getDemandForecast w ((getDemandForecast w c sku d (some m1) ic).2) sku d (some m2) ic').1
        = (getDemandForecast w c sku d (some m1) ic).1
      ∧ ((getDemandForecast w c sku d (some m1) ic).1).model_type = m1 := by
  unfold getDemandForecast
  simp [h, cacheSet, cacheGet]

/-- A minimal concrete prediction world. -/
def w0 : PredWorld :=
  { fw := fwNoVar, dateOf := fun _ => dt0, productName := none,
    activeModel := none, sales30 := [], stock := 0, featureFails := false }

/-- Witness for `c10_thm`: an empty cache, one-day horizon, first call
with model type `ensemble`, second call with model type `arima`. -/
theorem c10_witness :
    (getDemandForecast w0 ((getDemandForecast w0 [] "SKU1" 1 (some "ensemble") true).2) "SKU1" 1 (some "arima") true).1
        = (getDemandForecast w0 [] "SKU1" 1 (some "ensemble") true).1
      ∧ ((getDemandForecast w0 [] "SKU1" 1 (some "ensemble") true).1).model_type = "ensemble" :=
  c10_thm w0 [] "SKU1" 1 "ensemble" "arima" true true rfl

end Forecasting
